import Mathlib

/-!
Verification of the nanobot-fitsec tool-call security runtime.

This file shallowly embeds the FIT-Sec runtime (`src/nanobot/fitsec/`) and the
secure registry facade (`src/nanobot/agent/tools/secure_registry.py`) in Lean 4
and proves properties of the embedded code.

Modelling conventions:
* Python `float` values that only ever hold exact decimal constants and are
  compared with `<` / `>` (timestamps, gate metrics, approval expiries) are
  modelled as `ℚ`.
* Ambient effects are made explicit: `time.time()` becomes a `now : ℚ`
  parameter threaded through the functions that read the clock, and
  `uuid.uuid4()` identifiers become deterministic counters (the only property
  the source relies on is that they identify the entry/packet).
* Python `dict`s become association lists that hold at most one binding per
  key (the `assoc*` helpers below preserve this invariant, mirroring dict
  update and `del`), and Python sets become lists queried by membership.
* Exceptions become explicit outcome constructors; `None` returns become
  `Option.none`.
* The durable JSONL audit sink is out of the model (no claim concerns it);
  only the in-memory entry list of `AuditLogger` is embedded.
-/

namespace FitSec

/-- ASCII apostrophe, used in rationale strings taken from the source. -/
def sq : String := String.singleton (Char.ofNat 39)

/-- Dictionary lookup (`d.get(k)`) on an association list. -/
def assocLookup {β : Type} (k : String) : List (String × β) → Option β
  | [] => none
  | (k₁, v) :: rest => if k₁ = k then some v else assocLookup k rest

/-- Dictionary assignment (`d[k] = v`): replace the binding if the key is
present, otherwise append the new binding. -/
def assocUpdate {β : Type} (k : String) (v : β) : List (String × β) → List (String × β)
  | [] => [(k, v)]
  | (k₁, v₁) :: rest =>
      if k₁ = k then (k₁, v) :: rest else (k₁, v₁) :: assocUpdate k v rest

/-- Dictionary deletion (`del d[k]`): removes the binding for the key.
Association lists here model Python dicts, which hold at most one binding per
key, so removing every binding for the key is the faithful reading. -/
def assocErase {β : Type} (k : String) : List (String × β) → List (String × β)
  | [] => []
  | (k₁, v₁) :: rest =>
      if k₁ = k then assocErase k rest else (k₁, v₁) :: assocErase k rest

/-- `OmegaLevel` (types.py): blast-radius classification of a tool action. -/
inductive OmegaLevel
  | OMEGA_0
  | OMEGA_1
  | OMEGA_2
  | UNKNOWN
deriving DecidableEq, Repr

/-- The numeric `value` of an `OmegaLevel` member (types.py). -/
def OmegaLevel.value : OmegaLevel → Nat
  | .OMEGA_0 => 0
  | .OMEGA_1 => 1
  | .OMEGA_2 => 2
  | .UNKNOWN => 99

/-- The symbolic `name` of an `OmegaLevel` member. -/
def OmegaLevel.name : OmegaLevel → String
  | .OMEGA_0 => "OMEGA_0"
  | .OMEGA_1 => "OMEGA_1"
  | .OMEGA_2 => "OMEGA_2"
  | .UNKNOWN => "UNKNOWN"

/-- `Decision` (types.py): policy decision outcomes. -/
inductive Decision
  | ALLOW
  | DENY
  | REVIEW
deriving DecidableEq, Repr

/-- The symbolic `name` of a `Decision` member. -/
def Decision.name : Decision → String
  | .ALLOW => "ALLOW"
  | .DENY => "DENY"
  | .REVIEW => "REVIEW"

/-- `GateStatus` (types.py): monitorability gate status. -/
inductive GateStatus
  | PASS
  | FAIL_FPR
  | FAIL_COVERAGE
  | FAIL_CALIBRATION
  | FAIL_LEAD_TIME
  | UNKNOWN
deriving DecidableEq, Repr

/-- The symbolic `name` of a `GateStatus` member. -/
def GateStatus.name : GateStatus → String
  | .PASS => "PASS"
  | .FAIL_FPR => "FAIL_FPR"
  | .FAIL_COVERAGE => "FAIL_COVERAGE"
  | .FAIL_CALIBRATION => "FAIL_CALIBRATION"
  | .FAIL_LEAD_TIME => "FAIL_LEAD_TIME"
  | .UNKNOWN => "UNKNOWN"

/-- `EmptinessState` (types.py). -/
inductive EmptinessState
  | NORMAL
  | EMPTINESS
deriving DecidableEq, Repr

/-- Tool-call argument mapping (`Dict[str, Any]`); the security layer never
inspects argument values, so string values suffice for the model. -/
def Args : Type := List (String × String)
deriving DecidableEq, Repr

/-- `ToolManifest` (types.py): declared capabilities of a tool. -/
structure ToolManifest where
  tool_id : String
  omega_level : OmegaLevel
  description : String
  capabilities : List String := []
  network_domains : List String := []
  fs_paths : List String := []
  requires_approval : Bool := false
  hash_sha256 : Option String := none
deriving DecidableEq, Repr

/-- `ToolCall` (types.py): a proposed tool invocation. -/
structure ToolCall where
  tool_id : String
  action : String
  args : Args := []
  context : Args := []
  timestamp : ℚ := 0
deriving DecidableEq, Repr

/-- `GateMetrics` (types.py): operational usability metrics. The decimal
default thresholds of the source (0.05, 0.80, 0.7, 0.5) are written as the
equal reduced fractions so that concrete evaluation reduces. -/
structure GateMetrics where
  fpr : Option ℚ := none
  fpr_target : ℚ := ⟨1, 20, by decide, by decide⟩
  coverage_at_fpr : Option ℚ := none
  coverage_target : ℚ := ⟨4, 5, by decide, by decide⟩
  calibration_score : Option ℚ := none
  calibration_threshold : ℚ := ⟨7, 10, by decide, by decide⟩
  lead_time_mean : Option ℚ := none
  lead_time_std : Option ℚ := none
  lead_time_cv_max : ℚ := ⟨1, 2, by decide, by decide⟩
deriving DecidableEq, Repr

/-- `PolicyDecision` (types.py): result of a policy evaluation. -/
structure PolicyDecision where
  decision : Decision
  omega_level : OmegaLevel
  gate_status : GateStatus
  rationale : String
  metrics_snapshot : Option GateMetrics := none
  timestamp : ℚ := 0
deriving DecidableEq, Repr

/-- `AuditEntry` (types.py): audit log entry for a tool call decision.
`entry_id` is a deterministic counter standing in for `uuid.uuid4()`. -/
structure AuditEntry where
  entry_id : Nat
  tool_call : ToolCall
  manifest : Option ToolManifest
  policy_decision : PolicyDecision
  executed : Bool
  result : Option String := none
  error : Option String := none
  timestamp : ℚ := 0
deriving DecidableEq, Repr

/-- `PolicyEngine` state (policy.py): grants, time-bounded O2 approvals,
blocklist, network allowlist, and the default-deny flag. -/
structure PolicyEngine where
  default_omega2_deny : Bool := true
  grants : List (String × List String) := []
  omega2_approvals : List (String × ℚ) := []
  blocked_tools : List String := []
  allowed_network_domains : List String := []
deriving Repr

/-- The tail of the O2 branch of `PolicyEngine.evaluate` (policy.py lines
134-159): grant list check, then default deny or review. -/
def PolicyEngine.evalOmega2Rest (p : PolicyEngine) (tool_call : ToolCall)
    (omega : OmegaLevel) (gate_status : GateStatus) (now : ℚ) :
    PolicyDecision × PolicyEngine :=
  let granted :=
    match assocLookup tool_call.tool_id p.grants with
    | some allowed_actions =>
        allowed_actions.contains "*" || allowed_actions.contains tool_call.action
    | none => false
  if granted then
    ({ decision := .ALLOW, omega_level := omega, gate_status := gate_status,
       rationale := "O2 - granted by policy", timestamp := now }, p)
  else if p.default_omega2_deny then
    ({ decision := .DENY, omega_level := omega, gate_status := gate_status,
       rationale := "O2 (high risk) - denied by default, requires approval",
       timestamp := now }, p)
  else
    ({ decision := .REVIEW, omega_level := omega, gate_status := gate_status,
       rationale := "O2 (high risk) - requires human review", timestamp := now }, p)

/-- `PolicyEngine.evaluate` (policy.py lines 60-167): evaluate a tool call
against policy. Returns the decision together with the possibly-pruned engine
state (an expired O2 approval is lazily deleted). `now` stands for the
`time.time()` read at the expiry check; `now` also fills the decision
timestamp. -/
def PolicyEngine.evaluate (p : PolicyEngine) (tool_call : ToolCall)
    (manifest : Option ToolManifest) (gate_status : GateStatus) (now : ℚ) :
    PolicyDecision × PolicyEngine :=
  match manifest with
  | none =>
      ({ decision := .DENY, omega_level := .UNKNOWN, gate_status := gate_status,
         rationale := "Tool not registered (no manifest)", timestamp := now }, p)
  | some m =>
      let omega := m.omega_level
      if tool_call.tool_id ∈ p.blocked_tools then
        ({ decision := .DENY, omega_level := omega, gate_status := gate_status,
           rationale := "Tool " ++ sq ++ tool_call.tool_id ++ sq ++ " is blocked by policy",
           timestamp := now }, p)
      else if omega = .OMEGA_0 then
        ({ decision := .ALLOW, omega_level := omega, gate_status := gate_status,
           rationale := "O0 (safe) - allowed by default", timestamp := now }, p)
      else if omega = .OMEGA_1 then
        if gate_status = .PASS ∨ gate_status = .UNKNOWN then
          ({ decision := .ALLOW, omega_level := omega, gate_status := gate_status,
             rationale := "O1 (medium risk) - allowed with audit", timestamp := now }, p)
        else
          ({ decision := .DENY, omega_level := omega, gate_status := gate_status,
             rationale := "O1 blocked: gate failed (" ++ gate_status.name ++ ")",
             timestamp := now }, p)
      else if omega = .OMEGA_2 then
        match assocLookup tool_call.tool_id p.omega2_approvals with
        | some expiry =>
            if now < expiry then
              ({ decision := .ALLOW, omega_level := omega, gate_status := gate_status,
                 rationale := "O2 - explicitly approved (time-bounded)", timestamp := now }, p)
            else
              PolicyEngine.evalOmega2Rest
                { p with omega2_approvals := assocErase tool_call.tool_id p.omega2_approvals }
                tool_call omega gate_status now
        | none => PolicyEngine.evalOmega2Rest p tool_call omega gate_status now
      else
        ({ decision := .DENY, omega_level := omega, gate_status := gate_status,
           rationale := "Unknown O level - denied for safety", timestamp := now }, p)

/-- `PolicyEngine.grant_omega2_approval` (policy.py lines 169-176): grant a
time-bounded approval expiring at `now + duration_seconds`. -/
def PolicyEngine.grant_omega2_approval (p : PolicyEngine) (tool_id : String)
    (now : ℚ) (duration_seconds : ℚ) : PolicyEngine :=
  { p with omega2_approvals := assocUpdate tool_id (now + duration_seconds) p.omega2_approvals }

/-- `PolicyEngine.revoke_omega2_approval` (policy.py lines 178-180). -/
def PolicyEngine.revoke_omega2_approval (p : PolicyEngine) (tool_id : String) : PolicyEngine :=
  { p with omega2_approvals := assocErase tool_id p.omega2_approvals }

/-- `PolicyEngine.block_tool` (policy.py lines 182-184). -/
def PolicyEngine.block_tool (p : PolicyEngine) (tool_id : String) : PolicyEngine :=
  { p with blocked_tools := if tool_id ∈ p.blocked_tools then p.blocked_tools else p.blocked_tools ++ [tool_id] }

/-- `PolicyEngine.unblock_tool` (policy.py lines 186-188). -/
def PolicyEngine.unblock_tool (p : PolicyEngine) (tool_id : String) : PolicyEngine :=
  { p with blocked_tools := p.blocked_tools.filter (fun t => t ≠ tool_id) }

/-- `PolicyEngine.check_network_domain` (policy.py lines 194-198): an empty
allowlist imposes no restriction, otherwise membership decides. -/
def PolicyEngine.check_network_domain (p : PolicyEngine) (domain : String) : Bool :=
  if p.allowed_network_domains.isEmpty then true
  else p.allowed_network_domains.contains domain

/-- `MonitorabilityGate` state (gate.py): the last-observed metrics snapshot.
The threshold attributes of the Python class (`fpr_target` etc.) are only
interpolated into failure-message text, which no claim inspects, and are
omitted. -/
structure MonitorabilityGate where
  metrics : Option GateMetrics := none
deriving DecidableEq, Repr

/-- `MonitorabilityGate.update_metrics` (gate.py lines 41-43). -/
def MonitorabilityGate.update_metrics (g : MonitorabilityGate) (metrics : GateMetrics) :
    MonitorabilityGate :=
  { g with metrics := some metrics }

/-- `MonitorabilityGate.check` (gate.py lines 45-78) on the gate's current
metrics: absent metrics yield UNKNOWN; otherwise the FPR, coverage,
calibration and lead-time rules fire in order, each skipped when its
observation is absent. -/
def MonitorabilityGate.check (g : MonitorabilityGate) : GateStatus :=
  match g.metrics with
  | none => .UNKNOWN
  | some m =>
      if m.fpr.elim false (fun v => v > m.fpr_target) then .FAIL_FPR
      else if m.coverage_at_fpr.elim false (fun v => v < m.coverage_target) then .FAIL_COVERAGE
      else if m.calibration_score.elim false (fun v => v < m.calibration_threshold) then
        .FAIL_CALIBRATION
      else if (match m.lead_time_mean, m.lead_time_std with
               | some mean, some std =>
                   decide (mean > 0) && decide (std / mean > m.lead_time_cv_max)
               | _, _ => false) then .FAIL_LEAD_TIME
      else .PASS

/-- `MonitorabilityGate.get_failure_reason` (gate.py lines 89-112): `none` when
the gate passes or is unknown, otherwise a human-readable reason. The numeric
interpolations of the source (Python float formatting of the metric values
into the message) are elided from the text; no claim inspects these strings. -/
def MonitorabilityGate.get_failure_reason (g : MonitorabilityGate) : Option String :=
  match g.check with
  | .PASS => none
  | .UNKNOWN => none
  | .FAIL_FPR => some "FPR exceeds target"
  | .FAIL_COVERAGE => some "Coverage below target"
  | .FAIL_CALIBRATION => some "Calibration below threshold"
  | .FAIL_LEAD_TIME => some "Lead time coefficient of variation too high"

/-- `EmergencyGate` state (gate.py lines 115-143): a latching flag with a
reason. -/
structure EmergencyGate where
  emergency_active : Bool := false
  reason : String := ""
deriving DecidableEq, Repr

/-- `EmergencyGate.activate` (gate.py lines 127-130). -/
def EmergencyGate.activate (_g : EmergencyGate) (reason : String) : EmergencyGate :=
  { emergency_active := true, reason := reason }

/-- `EmergencyGate.deactivate` (gate.py lines 132-135). -/
def EmergencyGate.deactivate (_g : EmergencyGate) : EmergencyGate :=
  { emergency_active := false, reason := "" }

/-- `EmergencyGate.is_active` (gate.py lines 137-139). -/
def EmergencyGate.is_active (g : EmergencyGate) : Bool :=
  g.emergency_active

/-- `EmergencyGate.get_reason` (gate.py lines 141-143). -/
def EmergencyGate.get_reason (g : EmergencyGate) : String :=
  g.reason

/-- `ReviewPacket` (emptiness.py lines 19-42). `packet_id` is a deterministic
counter standing in for `uuid.uuid4()`; `dry_run_diffs` records are opaque to
every claim and are modelled as argument mappings. -/
structure ReviewPacket where
  packet_id : Nat
  timestamp : ℚ
  blocked_calls : List ToolCall
  proposed_plan : Option String := none
  dry_run_diffs : List Args := []
  context_summary : Option String := none
  recommendation : Option String := none
deriving DecidableEq, Repr

/-- `EmptinessWindow` state (emptiness.py lines 56-61). -/
structure EmptinessWindow where
  state : EmptinessState := .NORMAL
  activated_at : Option ℚ := none
  activation_reason : String := ""
  blocked_calls : List ToolCall := []
  review_packets : List ReviewPacket := []
deriving DecidableEq, Repr

/-- `EmptinessWindow.is_active` (emptiness.py lines 68-71). -/
def EmptinessWindow.is_active (w : EmptinessWindow) : Bool :=
  w.state = EmptinessState.EMPTINESS

/-- `EmptinessWindow.activate` (emptiness.py lines 73-84): only from NORMAL;
records the activation time and reason and clears the blocked-call buffer. -/
def EmptinessWindow.activate (w : EmptinessWindow) (reason : String) (now : ℚ) :
    EmptinessWindow :=
  if w.state = EmptinessState.NORMAL then
    { w with state := .EMPTINESS, activated_at := some now,
             activation_reason := reason, blocked_calls := [] }
  else w

/-- `EmptinessWindow._generate_review_packet` (emptiness.py lines 124-134):
builds a packet from the blocked calls and retains it in `review_packets`. -/
def EmptinessWindow.generate_review_packet (w : EmptinessWindow) (now : ℚ) :
    ReviewPacket × EmptinessWindow :=
  let packet : ReviewPacket :=
    { packet_id := w.review_packets.length, timestamp := now,
      blocked_calls := w.blocked_calls,
      recommendation := some (toString w.blocked_calls.length ++
        " action(s) blocked during Emptiness Window") }
  (packet, { w with review_packets := w.review_packets ++ [packet] })

/-- `EmptinessWindow.deactivate` (emptiness.py lines 86-103): only from
EMPTINESS; when review is required and the blocked buffer is non-empty, a
review packet is generated and returned; state is cleared either way. -/
def EmptinessWindow.deactivate (w : EmptinessWindow) (require_review : Bool) (now : ℚ) :
    Option ReviewPacket × EmptinessWindow :=
  if w.state = EmptinessState.EMPTINESS then
    let pw :=
      if require_review ∧ w.blocked_calls ≠ [] then
        let gen := w.generate_review_packet now
        (some gen.1, gen.2)
      else (none, w)
    (pw.1, { pw.2 with state := .NORMAL, activated_at := none,
                       activation_reason := "", blocked_calls := [] })
  else (none, w)

/-- `EmptinessWindow.check_allowed` (emptiness.py lines 105-117): true iff the
state is NORMAL or the blast radius is Omega0. -/
def EmptinessWindow.check_allowed (w : EmptinessWindow) (omega_level : OmegaLevel) : Bool :=
  if w.state = EmptinessState.NORMAL then true
  else omega_level = OmegaLevel.OMEGA_0

/-- `EmptinessWindow.record_blocked_call` (emptiness.py lines 119-122): append
to the buffer when in EMPTINESS; ignored in NORMAL. -/
def EmptinessWindow.record_blocked_call (w : EmptinessWindow) (tool_call : ToolCall) :
    EmptinessWindow :=
  if w.state = EmptinessState.EMPTINESS then
    { w with blocked_calls := w.blocked_calls ++ [tool_call] }
  else w

/-- `AuditLogger` state (audit.py): the in-memory entry list. The durable JSONL
sink is outside the model. -/
structure AuditLogger where
  entries : List AuditEntry := []
deriving DecidableEq, Repr

/-- `AuditLogger.log` (audit.py lines 46-72): appends exactly one entry built
from the arguments and returns it. `entry_id` is a deterministic counter
standing in for `uuid.uuid4()`; `now` stands for the `time.time()` read. -/
def AuditLogger.log (a : AuditLogger) (tool_call : ToolCall) (manifest : Option ToolManifest)
    (policy_decision : PolicyDecision) (executed : Bool) (result : Option String)
    (error : Option String) (now : ℚ) : AuditEntry × AuditLogger :=
  let entry : AuditEntry :=
    { entry_id := a.entries.length, tool_call := tool_call, manifest := manifest,
      policy_decision := policy_decision, executed := executed, result := result,
      error := error, timestamp := now }
  (entry, { entries := a.entries ++ [entry] })

/-- The value type of the `get_summary` mapping: counts, or the nested
count-by-blast-radius mapping. -/
inductive SummaryVal
  | num (n : Nat)
  | omap (m : List (String × Nat))
deriving DecidableEq, Repr

/-- The dict-increment step `by_omega[k] = by_omega.get(k, 0) + 1`
(audit.py lines 140-143), preserving Python dict insertion order. -/
def bumpCount (k : String) : List (String × Nat) → List (String × Nat)
  | [] => [(k, 1)]
  | (k₁, v) :: rest => if k₁ = k then (k₁, v + 1) :: rest else (k₁, v) :: bumpCount k rest

/-- The count-by-blast-radius mapping of `get_summary` (audit.py lines
140-143). -/
def byOmegaCounts (entries : List AuditEntry) : List (String × Nat) :=
  entries.foldl (fun m e => bumpCount e.policy_decision.omega_level.name m) []

/-- `AuditLogger.get_summary` (audit.py lines 123-152): summary statistics as a
key-value mapping. On an empty log the source returns early with only the
`total` key. `errors` counts entries whose `error` is truthy (present and
non-empty). -/
def AuditLogger.get_summary (a : AuditLogger) : List (String × SummaryVal) :=
  let total := a.entries.length
  if total = 0 then [("total", .num 0)]
  else
    let allowed := (a.entries.filter
      (fun e => e.policy_decision.decision.name == "ALLOW")).length
    let denied := (a.entries.filter
      (fun e => e.policy_decision.decision.name == "DENY")).length
    let executed := (a.entries.filter (fun e => e.executed)).length
    let errors := (a.entries.filter
      (fun e => match e.error with | some s => s ≠ "" | none => false)).length
    [("total", .num total), ("allowed", .num allowed), ("denied", .num denied),
     ("executed", .num executed), ("errors", .num errors),
     ("by_omega_level", .omap (byOmegaCounts a.entries))]

/-- An executor callback (`Callable` registered with the runtime): invoked with
the call's action and args, it returns a result or raises (modelled as
`Except.error` with the exception's message). -/
def Executor : Type := String → Args → Except String String

/-- `ToolRegistry` state (runtime.py lines 45-72): manifests and executors
keyed by tool id. -/
structure ToolRegistry where
  tools : List (String × ToolManifest) := []
  executors : List (String × Executor) := []

/-- `ToolRegistry.register` (runtime.py lines 52-60): stores the manifest and,
when given, the executor. -/
def ToolRegistry.register (r : ToolRegistry) (manifest : ToolManifest)
    (executor : Option Executor) : ToolRegistry :=
  { tools := assocUpdate manifest.tool_id manifest r.tools,
    executors :=
      match executor with
      | some ex => assocUpdate manifest.tool_id ex r.executors
      | none => r.executors }

/-- `ToolRegistry.get_manifest` (runtime.py lines 62-64). -/
def ToolRegistry.get_manifest (r : ToolRegistry) (tool_id : String) : Option ToolManifest :=
  assocLookup tool_id r.tools

/-- `ToolRegistry.get_executor` (runtime.py lines 66-68). -/
def ToolRegistry.get_executor (r : ToolRegistry) (tool_id : String) : Option Executor :=
  assocLookup tool_id r.executors

/-- `FitSecRuntime` state (runtime.py lines 87-104): the orchestrator and the
components it owns. -/
structure FitSecRuntime where
  strict_mode : Bool := true
  registry : ToolRegistry := {}
  policy : PolicyEngine := {}
  gate : MonitorabilityGate := {}
  emergency_gate : EmergencyGate := {}
  emptiness : EmptinessWindow := {}
  audit : AuditLogger := {}

/-- `FitSecRuntime.register_tool` (runtime.py lines 106-112). -/
def FitSecRuntime.register_tool (st : FitSecRuntime) (manifest : ToolManifest)
    (executor : Option Executor) : FitSecRuntime :=
  { st with registry := st.registry.register manifest executor }

/-- The terminal outcome of `FitSecRuntime.execute`: the raised typed failure,
the dry-run marker, or the executor's result. -/
inductive ExecOutcome
  | toolNotRegistered (msg : String)
  | emptinessActive (msg : String)
  | gateFailed (msg : String)
  | policyDenied (msg : String)
  | fitSecError (msg : String)
  | dryRun
  | success (result : String)
  | executorFault (msg : String)
deriving DecidableEq, Repr

/-- `FitSecRuntime.execute` (runtime.py lines 114-284): the orchestrator's
critical path — manifest lookup, emptiness check, emergency check,
monitorability gate (for O1/O2, enforced in strict mode), policy evaluation,
then dry run, executor dispatch, or denial; every terminal outcome logs one
audit entry. `now` stands for the wall-clock reads during the call. -/
def FitSecRuntime.execute (st : FitSecRuntime) (tool_call : ToolCall)
    (dry_run : Bool) (now : ℚ) : ExecOutcome × FitSecRuntime :=
  match st.registry.get_manifest tool_call.tool_id with
  | none =>
      let decision : PolicyDecision :=
        { decision := .DENY, omega_level := .UNKNOWN, gate_status := .UNKNOWN,
          rationale := "Tool not registered", timestamp := now }
      let a := (st.audit.log tool_call none decision false none
        (some "ToolNotRegisteredError") now).2
      (.toolNotRegistered ("Tool " ++ sq ++ tool_call.tool_id ++ sq ++ " not registered"),
       { st with audit := a })
  | some manifest =>
      let omega := manifest.omega_level
      if st.emptiness.check_allowed omega = false then
        let empt := st.emptiness.record_blocked_call tool_call
        let decision : PolicyDecision :=
          { decision := .DENY, omega_level := omega, gate_status := .UNKNOWN,
            rationale := "Blocked by Emptiness Window", timestamp := now }
        let a := (st.audit.log tool_call (some manifest) decision false none
          (some "EmptinessActiveError") now).2
        (.emptinessActive ("Action blocked: Emptiness Window active (O" ++
           toString omega.value ++ ")"),
         { st with emptiness := empt, audit := a })
      else if st.emergency_gate.is_active && !(omega = .OMEGA_0) then
        let decision : PolicyDecision :=
          { decision := .DENY, omega_level := omega, gate_status := .UNKNOWN,
            rationale := "Emergency gate active: " ++ st.emergency_gate.get_reason,
            timestamp := now }
        let a := (st.audit.log tool_call (some manifest) decision false none
          (some "EmergencyGateActive") now).2
        (.gateFailed "Emergency gate is active", { st with audit := a })
      else
        let gate_status :=
          if omega = .OMEGA_1 ∨ omega = .OMEGA_2 then st.gate.check else .PASS
        if !(gate_status = .PASS ∨ gate_status = .UNKNOWN) && st.strict_mode then
          let decision : PolicyDecision :=
            { decision := .DENY, omega_level := omega, gate_status := gate_status,
              rationale := "Monitorability gate failed: " ++ gate_status.name,
              metrics_snapshot := st.gate.metrics, timestamp := now }
          let a := (st.audit.log tool_call (some manifest) decision false none
            (some "GateFailedError") now).2
          (.gateFailed ((st.gate.get_failure_reason).getD gate_status.name),
           { st with audit := a })
        else
          let ep := st.policy.evaluate tool_call (some manifest) gate_status now
          let decision := ep.1
          let st1 := { st with policy := ep.2 }
          if decision.decision = .DENY then
            let a := (st1.audit.log tool_call (some manifest) decision false none
              (some "PolicyDeniedError") now).2
            (.policyDenied decision.rationale, { st1 with audit := a })
          else if decision.decision = .REVIEW then
            let empt := st1.emptiness.record_blocked_call tool_call
            let a := (st1.audit.log tool_call (some manifest) decision false none
              (some "RequiresReview") now).2
            (.policyDenied ("Requires human review: " ++ decision.rationale),
             { st1 with emptiness := empt, audit := a })
          else if dry_run then
            let a := (st1.audit.log tool_call (some manifest) decision false
              (some "[DRY RUN]") none now).2
            (.dryRun, { st1 with audit := a })
          else
            match st1.registry.get_executor tool_call.tool_id with
            | none =>
                let a := (st1.audit.log tool_call (some manifest) decision false none
                  (some "NoExecutor") now).2
                (.fitSecError ("No executor registered for " ++ sq ++
                   tool_call.tool_id ++ sq),
                 { st1 with audit := a })
            | some executor =>
                match executor tool_call.action tool_call.args with
                | .ok result =>
                    let a := (st1.audit.log tool_call (some manifest) decision true
                      (some result) none now).2
                    (.success result, { st1 with audit := a })
                | .error e =>
                    let a := (st1.audit.log tool_call (some manifest) decision true
                      none (some e) now).2
                    (.executorFault e, { st1 with audit := a })

/-- `FitSecRuntime.enter_emptiness` (runtime.py lines 286-288). -/
def FitSecRuntime.enter_emptiness (st : FitSecRuntime) (reason : String) (now : ℚ) :
    FitSecRuntime :=
  { st with emptiness := st.emptiness.activate reason now }

/-- `FitSecRuntime.exit_emptiness` (runtime.py lines 290-292): calls
`EmptinessWindow.deactivate()` (whose `require_review` defaults to true) and
returns `None`, discarding the review packet the window may have generated.
The first component is the value the source returns to its caller. -/
def FitSecRuntime.exit_emptiness (st : FitSecRuntime) (now : ℚ) :
    Option ReviewPacket × FitSecRuntime :=
  let dw := st.emptiness.deactivate true now
  (none, { st with emptiness := dw.2 })

/-- `FitSecRuntime.emergency_stop` (runtime.py lines 294-296). -/
def FitSecRuntime.emergency_stop (st : FitSecRuntime) (reason : String) : FitSecRuntime :=
  { st with emergency_gate := st.emergency_gate.activate reason }

/-- `FitSecRuntime.emergency_clear` (runtime.py lines 298-300). -/
def FitSecRuntime.emergency_clear (st : FitSecRuntime) : FitSecRuntime :=
  { st with emergency_gate := st.emergency_gate.deactivate }

/-- A tool implementation's native execute path (`await tool.execute(**params)`
in secure_registry.py): returns a result string or raises (modelled as
`Except.error`). Tool implementations are external collaborators; they are
modelled as raising only generic exceptions, never the FIT-Sec error types. -/
def NativeTool : Type := Args → Except String String

/-- `DEFAULT_OMEGA_MAPPINGS` (secure_registry.py lines 27-43). -/
def DEFAULT_OMEGA_MAPPINGS : List (String × OmegaLevel) :=
  [("read_file", .OMEGA_0), ("list_dir", .OMEGA_0), ("web_search", .OMEGA_0),
   ("web_fetch", .OMEGA_0), ("message", .OMEGA_0),
   ("write_file", .OMEGA_1), ("edit_file", .OMEGA_1),
   ("exec", .OMEGA_2), ("spawn", .OMEGA_2), ("cron", .OMEGA_2)]

/-- `SecureToolRegistry` state (secure_registry.py lines 54-77): the owned
FIT-Sec runtime, the omega mapping table, the user-facing registry's tools
(`self._registry`), and the stored executor callbacks
(`self._tool_executors`). -/
structure SecureToolRegistry where
  runtime : FitSecRuntime
  omega_mappings : List (String × OmegaLevel) := DEFAULT_OMEGA_MAPPINGS
  native_tools : List (String × NativeTool) := []
  tool_executors : List (String × NativeTool) := []

/-- Modelled from the spec: the user-facing tool registry
(`nanobot.agent.tools.registry.ToolRegistry`, an out-of-scope external
collaborator whose source is not in this repository snapshot) looks up the
named tool implementation and runs its execute path with the given params,
returning the result or propagating the tool's exception. -/
def nativeRegistryExecute (tools : List (String × NativeTool)) (name : String)
    (params : Args) : Except String String :=
  match assocLookup name tools with
  | some tool => tool params
  | none => .error ("Tool not found: " ++ name)

/-- `SecureToolRegistry.register` (secure_registry.py lines 79-114): store the
tool in the user registry, derive the blast radius from the override or the
mapping table (defaulting to OMEGA_1), build the manifest, and register a
synchronous stub executor with the FIT-Sec runtime. -/
def SecureToolRegistry.register (st : SecureToolRegistry) (name description : String)
    (tool : NativeTool) (omega_level : Option OmegaLevel) : SecureToolRegistry :=
  let level := omega_level.getD ((assocLookup name st.omega_mappings).getD .OMEGA_1)
  let manifest : ToolManifest :=
    { tool_id := name, omega_level := level, description := description,
      requires_approval := level = .OMEGA_2 }
  { st with
    native_tools := assocUpdate name tool st.native_tools,
    tool_executors := assocUpdate name tool st.tool_executors,
    runtime := st.runtime.register_tool manifest
      (some (fun _action _args => .ok ("[ASYNC:" ++ name ++ "]"))) }

/-- The terminal outcome of `SecureToolRegistry.execute`: a raised FIT-Sec
failure, a re-raised native exception, or the native tool's result. -/
inductive FacadeOutcome
  | emptinessActive (msg : String)
  | gateFailed (msg : String)
  | policyDenied (msg : String)
  | ok (result : String)
  | nativeFault (msg : String)
deriving DecidableEq, Repr

/-- `SecureToolRegistry.execute` (secure_registry.py lines 135-215): builds a
ToolCall, performs the facade's own emptiness check, consults the
monitorability gate only for OMEGA_2 manifests, evaluates policy, and on
anything but Deny runs the tool's native execute path through the user
registry, auditing only the execution outcome. `now` stands for the wall-clock
reads during the call. -/
def SecureToolRegistry.execute (st : SecureToolRegistry) (name : String) (params : Args)
    (now : ℚ) : FacadeOutcome × SecureToolRegistry :=
  let call : ToolCall := { tool_id := name, action := "execute", args := params,
                           timestamp := now }
  let manifest := st.runtime.registry.get_manifest name
  let emptinessBlocked :=
    st.runtime.emptiness.is_active &&
      (match manifest with
       | some m => !(st.runtime.emptiness.check_allowed m.omega_level)
       | none => false)
  if emptinessBlocked then
    let empt := st.runtime.emptiness.record_blocked_call call
    (.emptinessActive ("Emptiness Window active: " ++ name ++ " (O" ++
       toString ((manifest.map (fun m => m.omega_level.value)).getD 0) ++
       ") blocked"),
     { st with runtime := { st.runtime with emptiness := empt } })
  else
    let isOmega2 : Bool := match manifest with
      | some m => m.omega_level = OmegaLevel.OMEGA_2
      | none => false
    let gate_status := if isOmega2 then st.runtime.gate.check else .PASS
    if isOmega2 && !(gate_status = .PASS ∨ gate_status = .UNKNOWN) then
      (.gateFailed ("Monitorability Gate failed: " ++
         (st.runtime.gate.get_failure_reason).getD "None"), st)
    else
      let ep := st.runtime.policy.evaluate call manifest gate_status now
      let decision := ep.1
      let st1 := { st with runtime := { st.runtime with policy := ep.2 } }
      if decision.decision = .DENY then
        (.policyDenied (if decision.rationale = "" then "Policy denied: " ++ name
                        else decision.rationale), st1)
      else
        match nativeRegistryExecute st1.native_tools name params with
        | .ok result =>
            let a := (st1.runtime.audit.log call manifest decision true
              (some result) none now).2
            (.ok result, { st1 with runtime := { st1.runtime with audit := a } })
        | .error e =>
            let a := (st1.runtime.audit.log call manifest decision true
              none (some e) now).2
            (.nativeFault e, { st1 with runtime := { st1.runtime with audit := a } })

/-- `SecureToolRegistry.exit_emptiness` (secure_registry.py lines 239-241):
returns the value of `FitSecRuntime.exit_emptiness`, which is `None`. -/
def SecureToolRegistry.exit_emptiness (st : SecureToolRegistry) (now : ℚ) :
    Option ReviewPacket × SecureToolRegistry :=
  let rw := st.runtime.exit_emptiness now
  (rw.1, { st with runtime := rw.2 })

/-! Concrete instances used by the theorems below. They replay the spec's
end-to-end scenarios: a facade with `write_file` (O1 by the default mapping)
and `exec` (O2), gate metrics with an excessive false-positive rate, and an
active emptiness window with one blocked call. -/

/-- Gate metrics from scenario S4 of the spec: `fpr = 0.2` (written as the
reduced fraction 1/5) against the default `fpr_target = 0.05`; all other
observations absent. -/
def failMetrics : GateMetrics := { fpr := some ⟨1, 5, by decide, by decide⟩ }

/-- A native `write_file` tool implementation. -/
def writeTool : NativeTool := fun _params => .ok "wrote"

/-- A native `exec` tool implementation. -/
def execTool : NativeTool := fun _params => .ok "ran"

/-- A facade with `write_file` and `exec` registered through
`SecureToolRegistry.register` under the default omega mappings, strict mode
on. -/
def fac1 : SecureToolRegistry :=
  (SecureToolRegistry.register { runtime := {} } "write_file" "Write files" writeTool none).register
    "exec" "Run commands" execTool none

/-- `fac1` after the monitorability gate observed the failing metrics. -/
def fac2 : SecureToolRegistry :=
  { fac1 with runtime :=
      { fac1.runtime with gate := fac1.runtime.gate.update_metrics failMetrics } }

/-- `fac1` after entering the emptiness window. -/
def fac3 : SecureToolRegistry :=
  { fac1 with runtime := fac1.runtime.enter_emptiness "drill" 1 }

/-- The manifest `SecureToolRegistry.register` built for `write_file`. -/
def wmanifest : ToolManifest :=
  { tool_id := "write_file", omega_level := .OMEGA_1, description := "Write files" }

/-- A `write_file` call. -/
def wcall : ToolCall := { tool_id := "write_file", action := "execute", timestamp := 2 }

/-- A call naming an unregistered tool. -/
def ghostCall : ToolCall := { tool_id := "ghost", action := "execute", timestamp := 3 }

/-- `fac1`'s runtime with the emptiness window active. -/
def rtAct : FitSecRuntime := fac1.runtime.enter_emptiness "drill" 1

/-- `rtAct` after `write_file` was blocked by the emptiness window (one
buffered call). -/
def rtEmpt : FitSecRuntime := (rtAct.execute wcall false 2).2

/-- The review packet `EmptinessWindow.deactivate` generates for `rtEmpt`'s
buffer at time 5. -/
def pkt3 : ReviewPacket :=
  { packet_id := 0, timestamp := 5, blocked_calls := [wcall],
    recommendation := some "1 action(s) blocked during Emptiness Window" }

/-- Counterexample policy state for C6: `exec` is blocklisted and holds an
approval that expired at time 10. -/
def p6c : PolicyEngine := { blocked_tools := ["exec"], omega2_approvals := [("exec", 10)] }

/-- An OMEGA_2 manifest for `exec`. -/
def m6c : ToolManifest := { tool_id := "exec", omega_level := .OMEGA_2, description := "Run commands" }

/-- An `exec` call. -/
def c6c : ToolCall := { tool_id := "exec", action := "execute" }

/-- Witness policy state for C7: `exec` is blocklisted yet holds an unexpired
approval and a wildcard grant. -/
def p7w : PolicyEngine :=
  { blocked_tools := ["exec"], omega2_approvals := [("exec", 1000)],
    grants := [("exec", ["*"])] }

/-- Witness policy state for C10: a one-domain network allowlist. -/
def pNet : PolicyEngine := { allowed_network_domains := ["example.com"] }

/-- A sample denial audit entry (the entry `FitSecRuntime.execute` logs for
`ghostCall` against an empty registry at time 3). -/
def ghostEntry : AuditEntry :=
  { entry_id := 0, tool_call := ghostCall, manifest := none,
    policy_decision :=
      { decision := .DENY, omega_level := .UNKNOWN, gate_status := .UNKNOWN,
        rationale := "Tool not registered", timestamp := 3 },
    executed := false, error := some "ToolNotRegisteredError", timestamp := 3 }

/-- A one-entry audit log used as the C9 witness input. -/
def sampleLog : AuditLogger := { entries := [ghostEntry] }

/-! Association-list lemmas shared by the proofs. -/

theorem assocLookup_update_self {β : Type} (k : String) (v : β) (l : List (String × β)) :
    assocLookup k (assocUpdate k v l) = some v := by
  induction l with
  | nil => simp [assocUpdate, assocLookup]
  | cons head rest ih =>
      obtain ⟨k₁, v₁⟩ := head
      by_cases h : k₁ = k
      · simp [assocUpdate, assocLookup, h]
      · simp [assocUpdate, assocLookup, h, ih]

theorem assocLookup_erase_self {β : Type} (k : String) (l : List (String × β)) :
    assocLookup k (assocErase k l) = none := by
  induction l with
  | nil => simp [assocErase, assocLookup]
  | cons head rest ih =>
      obtain ⟨k₁, v₁⟩ := head
      by_cases h : k₁ = k
      · simp [assocErase, h, ih]
      · simp [assocErase, assocLookup, h, ih]

/-- C1: the claim fails on the code. For the Omega1 tool `write_file`
registered through the facade, with the gate's current metrics yielding a
failing status (FAIL_FPR) and strict mode on, `SecureToolRegistry.execute`
does not raise GateFailed: it runs the tool's native execute path and returns
its result, because the facade consults the monitorability gate only for
OMEGA_2 manifests (secure_registry.py line 174). -/
theorem C1_facade_omega1_gate_not_enforced :
    fac2.runtime.strict_mode = true ∧
    fac2.runtime.gate.check = GateStatus.FAIL_FPR ∧
    (fac2.execute "write_file" [] 1).1 = FacadeOutcome.ok "wrote" :=
  ⟨rfl, by decide, by decide⟩

/-- C2: the claim fails on the code. `SecureToolRegistry.execute` raises its
three block failures — PolicyDenied, EmptinessActive, GateFailed — without
appending any audit entry: each audit log below is empty before the call and
still empty after it. -/
theorem C2_facade_block_paths_unaudited :
    fac1.runtime.audit.entries = [] ∧
    (fac1.execute "exec" [] 1).1 =
      FacadeOutcome.policyDenied "O2 (high risk) - denied by default, requires approval" ∧
    (fac1.execute "exec" [] 1).2.runtime.audit.entries = [] ∧
    (fac3.execute "write_file" [] 2).1 =
      FacadeOutcome.emptinessActive "Emptiness Window active: write_file (O1) blocked" ∧
    (fac3.execute "write_file" [] 2).2.runtime.audit.entries = [] ∧
    (fac2.execute "exec" [] 1).1 =
      FacadeOutcome.gateFailed "Monitorability Gate failed: FPR exceeds target" ∧
    (fac2.execute "exec" [] 1).2.runtime.audit.entries = [] :=
  ⟨rfl, by decide, by decide, by decide, by decide, by decide, by decide⟩

/-- C3: the claim fails on the code. With the emptiness window active and one
buffered blocked call, `FitSecRuntime.exit_emptiness` returns None — it
discards the review packet that `EmptinessWindow.deactivate` generates for
exactly that buffer. -/
theorem C3_runtime_exit_emptiness_returns_none :
    rtEmpt.emptiness.is_active = true ∧
    rtEmpt.emptiness.blocked_calls = [wcall] ∧
    (rtEmpt.exit_emptiness 5).1 = none ∧
    (rtEmpt.emptiness.deactivate true 5).1 = some pkt3 ∧
    pkt3.blocked_calls = [wcall] :=
  ⟨by decide, by decide, by decide, by decide, by decide⟩

/-- C6 counterexample: for the OMEGA_2 tool `exec` with no grant covering the
action and `default_omega2_deny` set, whose approval expired at time 10,
evaluation at time 20 (strictly after expiry) returns Deny — but the expired
approval is NOT removed from the approvals map, because `exec` is on the
blocklist and the blocklist rule returns before the approval check. -/
theorem C6_counterexample_blocked_tool_not_pruned :
    (10 : ℚ) < 20 ∧
    p6c.grants = [] ∧ p6c.default_omega2_deny = true ∧
    m6c.omega_level = OmegaLevel.OMEGA_2 ∧
    (p6c.evaluate c6c (some m6c) GateStatus.UNKNOWN 20).1.decision = Decision.DENY ∧
    assocLookup "exec" (p6c.evaluate c6c (some m6c) GateStatus.UNKNOWN 20).2.omega2_approvals
      = some 10 :=
  ⟨by norm_num, rfl, rfl, rfl, by decide, by decide⟩

/-- C7: a blocklisted tool with a registered manifest is denied with the
blocked-by-policy rationale by `PolicyEngine.evaluate`, whatever the rest of
the policy state — in particular even when an unexpired approval or a covering
grant exists, since the universally quantified state may contain them. -/
theorem C7_blocklist_overrides_grants_and_approvals (p : PolicyEngine) (c : ToolCall)
    (m : ToolManifest) (gs : GateStatus) (now : ℚ)
    (hb : c.tool_id ∈ p.blocked_tools) :
    (p.evaluate c (some m) gs now).1.decision = Decision.DENY ∧
    (p.evaluate c (some m) gs now).1.rationale =
      "Tool " ++ sq ++ c.tool_id ++ sq ++ " is blocked by policy" := by
  simp [PolicyEngine.evaluate, hb]

/-- C7 witness: the blocklisted `exec` holds an unexpired approval (expiry
1000, evaluated at time 0) and a wildcard grant, yet is denied as blocked. -/
theorem C7_blocklist_overrides_grants_and_approvals_witness :
    (p7w.evaluate c6c (some m6c) GateStatus.UNKNOWN 0).1.decision = Decision.DENY :=
  (C7_blocklist_overrides_grants_and_approvals p7w c6c m6c GateStatus.UNKNOWN 0
    (by decide)).1

/-- C9 counterexample: on the empty audit log, `AuditLogger.get_summary`
returns only the `total` key — `allowed`, `denied`, `executed`, `errors` and
the count-by-blast-radius are all absent. -/
theorem C9_counterexample_empty_summary :
    AuditLogger.get_summary ⟨[]⟩ = [("total", SummaryVal.num 0)] ∧
    assocLookup "allowed" (AuditLogger.get_summary ⟨[]⟩) = none ∧
    assocLookup "denied" (AuditLogger.get_summary ⟨[]⟩) = none ∧
    assocLookup "executed" (AuditLogger.get_summary ⟨[]⟩) = none ∧
    assocLookup "errors" (AuditLogger.get_summary ⟨[]⟩) = none ∧
    assocLookup "by_omega_level" (AuditLogger.get_summary ⟨[]⟩) = none :=
  ⟨by decide, by decide, by decide, by decide, by decide, by decide⟩

/-- C10: `PolicyEngine.check_network_domain` returns true whenever the network
allowlist is empty, and otherwise returns true exactly when the domain is a
member of the allowlist. -/
theorem C10_check_network_domain_semantics (p : PolicyEngine) (domain : String) :
    (p.allowed_network_domains = [] → p.check_network_domain domain = true) ∧
    (p.allowed_network_domains ≠ [] →
      (p.check_network_domain domain = true ↔ domain ∈ p.allowed_network_domains)) := by
  constructor
  · intro h
    simp [PolicyEngine.check_network_domain, h]
  · intro h
    simp [PolicyEngine.check_network_domain, List.isEmpty_iff, h]

/-- C10 witness: the empty allowlist admits any domain; the one-domain
allowlist admits its member. -/
theorem C10_check_network_domain_semantics_witness :
    PolicyEngine.check_network_domain {} "example.com" = true ∧
    pNet.check_network_domain "example.com" = true :=
  ⟨(C10_check_network_domain_semantics {} "example.com").1 rfl,
   ((C10_check_network_domain_semantics pNet "example.com").2 (by decide)).mpr (by decide)⟩

/-- Every branch of `FitSecRuntime.execute` appends exactly one audit entry,
and a denial entry is never marked executed. -/
theorem execute_audit_entry_spec (st : FitSecRuntime) (c : ToolCall) (d : Bool) (n : ℚ) :
    ∃ e : AuditEntry,
      (st.execute c d n).2.audit.entries = st.audit.entries ++ [e] ∧
      (e.policy_decision.decision = Decision.DENY → e.executed = false) := by
  simp only [FitSecRuntime.execute, AuditLogger.log]
  repeat' split
  all_goals refine ⟨_, rfl, fun hd => ?_⟩
  all_goals first
    | rfl
    | exact absurd hd (by assumption)

/-- C4: every call to `FitSecRuntime.execute`, whatever its terminal outcome,
appends exactly one entry to the audit log. -/
theorem C4_execute_appends_exactly_one_audit_entry (st : FitSecRuntime) (c : ToolCall)
    (d : Bool) (n : ℚ) :
    ((st.execute c d n).2.audit.entries).length = st.audit.entries.length + 1 := by
  obtain ⟨e, he, -⟩ := execute_audit_entry_spec st c d n
  rw [he]
  simp

/-- C8: the audit entry `FitSecRuntime.execute` appends never records a Deny
decision together with `executed = true`. -/
theorem C8_deny_entries_not_executed (st : FitSecRuntime) (c : ToolCall) (d : Bool) (n : ℚ)
    (e : AuditEntry)
    (happ : (st.execute c d n).2.audit.entries = st.audit.entries ++ [e])
    (hden : e.policy_decision.decision = Decision.DENY) :
    e.executed = false := by
  obtain ⟨e₁, he₁, himp⟩ := execute_audit_entry_spec st c d n
  have hee : e = e₁ := by
    have h2 := happ.symm.trans he₁
    have h3 := List.append_cancel_left h2
    simpa using h3
  exact hee ▸ himp (hee ▸ hden)

/-- C8 witness: executing the unregistered `ghost` call on a fresh runtime
appends the concrete denial entry `ghostEntry`, which is not executed. -/
theorem C8_deny_entries_not_executed_witness :
    ghostEntry.executed = false :=
  C8_deny_entries_not_executed {} ghostCall false 3 ghostEntry (by decide) rfl

/-- C5: with the emptiness window active, a call whose manifest is not OMEGA_0
is denied with the emptiness rationale, raises EmptinessActive, and lands in
the blocked-call buffer, whatever the rest of the runtime state. -/
theorem C5_emptiness_blocks_non_omega0 (st : FitSecRuntime) (c : ToolCall) (m : ToolManifest)
    (d : Bool) (n : ℚ)
    (hm : st.registry.get_manifest c.tool_id = some m)
    (hact : st.emptiness.is_active = true)
    (hw : m.omega_level ≠ OmegaLevel.OMEGA_0) :
    (st.execute c d n).1 = ExecOutcome.emptinessActive
        ("Action blocked: Emptiness Window active (O" ++ toString m.omega_level.value ++ ")") ∧
    (st.execute c d n).2.emptiness.blocked_calls = st.emptiness.blocked_calls ++ [c] ∧
    ∃ e : AuditEntry,
      (st.execute c d n).2.audit.entries = st.audit.entries ++ [e] ∧
      e.policy_decision.decision = Decision.DENY ∧
      e.policy_decision.rationale = "Blocked by Emptiness Window" ∧
      e.executed = false := by
  have hstate : st.emptiness.state = EmptinessState.EMPTINESS := by
    simpa [EmptinessWindow.is_active] using hact
  have hca : st.emptiness.check_allowed m.omega_level = false := by
    simp [EmptinessWindow.check_allowed, hstate, hw]
  refine ⟨?_, ?_, ?_⟩
  · simp [FitSecRuntime.execute, hm, hca]
  · simp [FitSecRuntime.execute, hm, hca, EmptinessWindow.record_blocked_call, hstate]
  · simp only [FitSecRuntime.execute, hm, hca, AuditLogger.log]
    exact ⟨_, rfl, rfl, rfl, rfl⟩

/-- C5 witness: with `fac1`'s runtime in emptiness mode, the O1 `write_file`
call is blocked with the emptiness message. -/
theorem C5_emptiness_blocks_non_omega0_witness :
    (rtAct.execute wcall false 2).1 =
      ExecOutcome.emptinessActive "Action blocked: Emptiness Window active (O1)" :=
  (C5_emptiness_blocks_non_omega0 rtAct wcall wmanifest false 2 (by decide) (by decide)
    (by decide)).1

/-- C6 (amended): for an OMEGA_2 tool that is not blocklisted, with no grant
covering the called action and `default_omega2_deny` set, an approval granted
at time t with duration D never allows at any time strictly after t + D:
evaluation returns Deny with the default-deny rationale and removes the
expired approval from the approvals map. -/
theorem C6_expired_approval_denies_and_prunes (p : PolicyEngine) (tool : String)
    (t D now : ℚ) (gs : GateStatus) (c : ToolCall) (m : ToolManifest)
    (hc : c.tool_id = tool)
    (hm : m.omega_level = OmegaLevel.OMEGA_2)
    (hb : tool ∉ p.blocked_tools)
    (hg : ∀ acts, assocLookup tool p.grants = some acts →
            acts.contains "*" = false ∧ acts.contains c.action = false)
    (hd : p.default_omega2_deny = true)
    (ht : t + D < now) :
    ((p.grant_omega2_approval tool t D).evaluate c (some m) gs now).1.decision =
        Decision.DENY ∧
    ((p.grant_omega2_approval tool t D).evaluate c (some m) gs now).1.rationale =
        "O2 (high risk) - denied by default, requires approval" ∧
    assocLookup tool
        ((p.grant_omega2_approval tool t D).evaluate c (some m) gs now).2.omega2_approvals =
      none := by
  subst hc
  have hnl : ¬ now < t + D := not_lt.mpr ht.le
  have h1 : assocLookup c.tool_id (assocUpdate c.tool_id (t + D) p.omega2_approvals) =
      some (t + D) := assocLookup_update_self _ _ _
  have hkey : ((p.grant_omega2_approval c.tool_id t D).evaluate c (some m) gs now) =
      ({ decision := .DENY, omega_level := m.omega_level, gate_status := gs,
         rationale := "O2 (high risk) - denied by default, requires approval",
         timestamp := now },
       { p with omega2_approvals :=
           assocErase c.tool_id (assocUpdate c.tool_id (t + D) p.omega2_approvals) }) := by
    cases heq : assocLookup c.tool_id p.grants with
    | none =>
        simp [PolicyEngine.evaluate, PolicyEngine.grant_omega2_approval, hm, hb, h1, hnl,
          PolicyEngine.evalOmega2Rest, heq, hd]
    | some acts =>
        obtain ⟨hstar, hact⟩ := hg acts heq
        have hstar₁ : "*" ∉ acts := by simpa using hstar
        have hact₁ : c.action ∉ acts := by simpa using hact
        simp [PolicyEngine.evaluate, PolicyEngine.grant_omega2_approval, hm, hb, h1, hnl,
          PolicyEngine.evalOmega2Rest, heq, hstar₁, hact₁, hd]
  rw [hkey]
  exact ⟨rfl, rfl, assocLookup_erase_self _ _⟩

/-- C6 witness: on an otherwise-empty policy, an approval for `exec` granted at
time 0 for 60 seconds no longer allows at time 61. -/
theorem C6_expired_approval_denies_and_prunes_witness :
    ((PolicyEngine.grant_omega2_approval {} "exec" 0 60).evaluate c6c (some m6c)
        GateStatus.UNKNOWN 61).1.decision = Decision.DENY :=
  (C6_expired_approval_denies_and_prunes {} "exec" 0 60 61 GateStatus.UNKNOWN c6c m6c
    rfl rfl (by simp) (by intro acts h; simp [assocLookup] at h) rfl (by norm_num)).1

theorem assocLookup_bumpCount_self (k : String) (m : List (String × Nat)) :
    (assocLookup k (bumpCount k m)).getD 0 = (assocLookup k m).getD 0 + 1 := by
  induction m with
  | nil => simp [bumpCount, assocLookup]
  | cons head rest ih =>
      obtain ⟨k₁, v₁⟩ := head
      by_cases h : k₁ = k
      · simp [bumpCount, assocLookup, h]
      · simp [bumpCount, assocLookup, h, ih]

theorem assocLookup_bumpCount_ne (k q : String) (m : List (String × Nat)) (h : k ≠ q) :
    assocLookup q (bumpCount k m) = assocLookup q m := by
  induction m with
  | nil => simp [bumpCount, assocLookup, h]
  | cons head rest ih =>
      obtain ⟨k₁, v₁⟩ := head
      by_cases h₁ : k₁ = k
      · simp [bumpCount, assocLookup, h₁, h]
      · simp [bumpCount, assocLookup, h₁, ih]

/-- Counting lemma for the `by_omega_level` fold of `get_summary`: the count
stored under a key equals the accumulator's count plus the number of entries
whose omega-level name is that key. -/
theorem byOmega_foldl_count (entries : List AuditEntry) (m : List (String × Nat)) (k : String) :
    (assocLookup k
        (entries.foldl (fun acc e => bumpCount e.policy_decision.omega_level.name acc) m)).getD 0
      = (assocLookup k m).getD 0
        + (entries.filter (fun e => e.policy_decision.omega_level.name == k)).length := by
  induction entries generalizing m with
  | nil => simp
  | cons e es ih =>
      by_cases h : e.policy_decision.omega_level.name = k
      · rw [List.foldl_cons, ih, h, assocLookup_bumpCount_self]
        simp [List.filter_cons, h]
        omega
      · rw [List.foldl_cons, ih, assocLookup_bumpCount_ne _ _ _ h]
        simp [List.filter_cons, h]

theorem omegaLevel_name_inj (a b : OmegaLevel) : (a.name == b.name) = (a == b) := by
  cases a <;> cases b <;> decide

theorem decision_name_allow (e : AuditEntry) :
    (e.policy_decision.decision.name == "ALLOW") =
      decide (e.policy_decision.decision = Decision.ALLOW) := by
  cases h : e.policy_decision.decision <;> simp [h, Decision.name]

theorem decision_name_deny (e : AuditEntry) :
    (e.policy_decision.decision.name == "DENY") =
      decide (e.policy_decision.decision = Decision.DENY) := by
  cases h : e.policy_decision.decision <;> simp [h, Decision.name]

theorem error_truthy (e : AuditEntry) :
    (match e.error with | some s => decide (s ≠ "") | none => false) =
      decide (e.error ≠ none ∧ e.error ≠ some "") := by
  cases h : e.error with
  | none => simp
  | some s =>
      by_cases hs : s = "" <;> simp [hs]

/-- C9 (amended): on every non-empty audit log, `get_summary` carries all of
total, allowed, denied, executed, errors and the count-by-blast-radius, with
counts consistent with the stored entries; the empty log yields only total. -/
theorem C9_nonempty_summary_keys_and_counts (a : AuditLogger) (hne : a.entries ≠ []) :
    assocLookup "total" a.get_summary = some (.num a.entries.length) ∧
    assocLookup "allowed" a.get_summary =
      some (.num (a.entries.filter
        (fun e => e.policy_decision.decision = Decision.ALLOW)).length) ∧
    assocLookup "denied" a.get_summary =
      some (.num (a.entries.filter
        (fun e => e.policy_decision.decision = Decision.DENY)).length) ∧
    assocLookup "executed" a.get_summary =
      some (.num (a.entries.filter (fun e => e.executed)).length) ∧
    assocLookup "errors" a.get_summary =
      some (.num (a.entries.filter
        (fun e => e.error ≠ none ∧ e.error ≠ some "")).length) ∧
    ∃ bo, assocLookup "by_omega_level" a.get_summary = some (.omap bo) ∧
      ∀ lvl : OmegaLevel, (assocLookup lvl.name bo).getD 0
        = (a.entries.filter (fun e => e.policy_decision.omega_level = lvl)).length := by
  have hlen : a.entries.length ≠ 0 := by
    simpa [List.length_eq_zero] using hne
  have hall : (fun e : AuditEntry => e.policy_decision.decision.name == "ALLOW") =
      (fun e : AuditEntry => decide (e.policy_decision.decision = Decision.ALLOW)) :=
    funext decision_name_allow
  have hden : (fun e : AuditEntry => e.policy_decision.decision.name == "DENY") =
      (fun e : AuditEntry => decide (e.policy_decision.decision = Decision.DENY)) :=
    funext decision_name_deny
  have herr : (fun e : AuditEntry =>
        (match e.error with | some s => decide (s ≠ "") | none => false)) =
      (fun e : AuditEntry => decide (e.error ≠ none ∧ e.error ≠ some "")) :=
    funext error_truthy
  refine ⟨?_, ?_, ?_, ?_, ?_, byOmegaCounts a.entries, ?_, ?_⟩
  · simp [AuditLogger.get_summary, hlen, assocLookup]
  · simp [AuditLogger.get_summary, hlen, assocLookup, hall]
  · simp [AuditLogger.get_summary, hlen, assocLookup, hden]
  · simp [AuditLogger.get_summary, hlen, assocLookup]
  · simp [AuditLogger.get_summary, hlen, assocLookup]
    congr 1
    apply List.filter_congr
    intro e _
    cases he : e.error with
    | none => simp [he]
    | some s => by_cases hs : s = "" <;> simp [he, hs]
  · simp [AuditLogger.get_summary, hlen, assocLookup]
  · intro lvl
    have hcnt := byOmega_foldl_count a.entries [] lvl.name
    have hpred : (fun e : AuditEntry => e.policy_decision.omega_level.name == lvl.name) =
        (fun e : AuditEntry => e.policy_decision.omega_level == lvl) :=
      funext (fun e => omegaLevel_name_inj _ _)
    rw [byOmegaCounts, hcnt, hpred]
    simp only [assocLookup, Option.getD_none, Nat.zero_add]
    congr 1

/-- C9 witness: on the one-entry sample log, `get_summary` carries the denied
count 1 under the `denied` key. -/
theorem C9_nonempty_summary_keys_and_counts_witness :
    assocLookup "denied" sampleLog.get_summary = some (SummaryVal.num 1) :=
  (C9_nonempty_summary_keys_and_counts sampleLog (by simp [sampleLog])).2.2.1

end FitSec
